import Mathlib

/-!
Shallow embedding of the Messy-Migration user-management API
(src/app.py, src/db.py, src/init_db.py) and proofs about its
request handlers and persistence layer.

The SQLite `users` table is modelled as a list of rows kept in rowid
order (for this table `id INTEGER PRIMARY KEY AUTOINCREMENT` coincides
with the rowid, and a full scan returns rows in rowid order), together
with the next AUTOINCREMENT value.  `werkzeug`'s salted password
hashing is opaque to every handler, so it enters the model as a
function parameter `hash : String → String`, and `check_password_hash`
as `check : String → String → Bool` (first argument the stored hash).
JSON response bodies produced by `jsonify` are either a flat object or
an array of flat objects, which is exactly what the code builds.
-/

/-- Scalar JSON values appearing in this API's responses. -/
inductive JVal where
  | s (v : String)
  | n (v : Nat)
deriving DecidableEq, Repr

/-- A flat JSON object: association list of keys and scalar values,
in insertion order (as Python dicts preserve). -/
abbrev JObj := List (String × JVal)

/-- A response body passed to `jsonify`: a flat object or an array of
flat objects (the only two shapes app.py produces). -/
inductive Body where
  | obj (o : JObj)
  | arr (os : List JObj)
deriving DecidableEq, Repr

/-- Whether a flat object has a field with the given key. -/
def JObj.hasKey (o : JObj) (k : String) : Bool :=
  o.any (fun p => p.1 == k)

/-- Whether a serialized body contains a field with the given key,
anywhere (top-level object, or inside any element of an array). -/
def Body.hasKey : Body → String → Bool
  | .obj o, k => o.hasKey k
  | .arr os, k => os.any (fun o => o.hasKey k)

/-- Shorthand for the `{"message": ...}` bodies app.py returns. -/
def jmsg (m : String) : Body := .obj [("message", .s m)]

/-- Python truthiness of `data.get(key)`: `None` and the empty string
are falsy, any other string is truthy. -/
def truthy : Option String → Bool
  | none => false
  | some s => s ≠ ""

/-- One row of the `users` table
(`id INTEGER PRIMARY KEY AUTOINCREMENT, name, email UNIQUE, password`).
The `password` column stores the werkzeug hash. -/
structure UserRow where
  id : Nat
  name : String
  email : String
  password : String
deriving DecidableEq, Repr

/-- The database: rows in rowid (= id) order, plus the next
AUTOINCREMENT id. -/
structure Store where
  rows : List UserRow
  nextId : Nat
deriving DecidableEq, Repr

/-- The dict a row becomes under `SELECT id, name, email` with
`sqlite3.Row` and `dict(user)`: keys in select-list order, and no
password column at all. -/
def rowToDict (u : UserRow) : JObj :=
  [("id", .n u.id), ("name", .s u.name), ("email", .s u.email)]

/-- GET /users (app.py `get_all_users`): `SELECT id, name, email FROM
users`, every row serialized, status 200. -/
def get_all_users (st : Store) : Body × Nat :=
  (.arr (st.rows.map rowToDict), 200)

/-- GET /user/{id} (app.py `get_user`): `SELECT id, name, email FROM
users WHERE id = ?` with `fetchone`; 200 with the row, else 404. -/
def get_user (st : Store) (user_id : Nat) : Body × Nat :=
  match st.rows.find? (fun u => u.id == user_id) with
  | some u => (.obj (rowToDict u), 200)
  | none => (jmsg "User not found", 404)

/-- Parsed JSON payload of POST /users; each field is `data.get(...)`,
`none` when absent. -/
structure CreateBody where
  name : Option String
  email : Option String
  password : Option String
deriving Repr

/-- POST /users (app.py `create_user`).  `data = none` models a body
that fails `request.get_json()` / the `if not data` check.  The
`INSERT` raises `sqlite3.IntegrityError` exactly when the UNIQUE email
constraint is violated, giving 409 and leaving the table untouched;
otherwise the row is appended with id `lastrowid = nextId`. -/
def create_user (hash : String → String) (st : Store) (data : Option CreateBody) :
    (Body × Nat) × Store :=
  match data with
  | none => ((jmsg "Invalid JSON", 400), st)
  | some d =>
    if truthy d.name && truthy d.email && truthy d.password then
      let name := d.name.getD ""
      let email := d.email.getD ""
      let hashed := hash (d.password.getD "")
      if st.rows.any (fun u => u.email == email) then
        ((jmsg "User with this email already exists", 409), st)
      else
        ((.obj [("message", .s "User created successfully!"), ("user_id", .n st.nextId)], 201),
         ⟨st.rows ++ [⟨st.nextId, name, email, hashed⟩], st.nextId + 1⟩)
    else
      ((jmsg "Missing name, email, or password", 400), st)

/-- Parsed JSON payload of PUT /user/{id}. -/
structure UpdateBody where
  name : Option String
  email : Option String
deriving Repr

/-- The row after the dynamically built `UPDATE users SET ...` runs on
it: only the truthy fields of the payload are assigned. -/
def applyUpdate (d : UpdateBody) (u : UserRow) : UserRow :=
  { u with
    name := if truthy d.name then d.name.getD "" else u.name
    email := if truthy d.email then d.email.getD "" else u.email }

/-- PUT /user/{id} (app.py `update_user`).  Falsy (absent or empty)
fields are left out of the SET list; if both are falsy the handler
returns 400 before touching the database.  The UNIQUE constraint
fires exactly when a matched row would receive an email some other
row already has.  SQLite's `cursor.rowcount` after an UPDATE counts
the rows matched by the WHERE clause, whether or not the new values
differ from the old; on zero matched rows the handler re-queries the
id to tell 404 from "no changes". -/
def update_user (st : Store) (user_id : Nat) (data : Option UpdateBody) :
    (Body × Nat) × Store :=
  match data with
  | none => ((jmsg "Invalid JSON", 400), st)
  | some d =>
    if truthy d.name || truthy d.email then
      if st.rows.any (fun u => u.id == user_id) && truthy d.email
          && st.rows.any (fun v => v.id != user_id && v.email == d.email.getD "") then
        ((jmsg "User with this email already exists", 409), st)
      else
        let rowcount := st.rows.countP (fun u => u.id == user_id)
        let st' : Store :=
          { st with rows := st.rows.map (fun u => if u.id == user_id then applyUpdate d u else u) }
        if rowcount == 0 then
          match st'.rows.find? (fun u => u.id == user_id) with
          | none => ((jmsg "User not found", 404), st')
          | some _ =>
            ((jmsg "User found but no changes made (data was identical)", 200), st')
        else
          ((jmsg "User updated successfully", 200), st')
    else
      ((jmsg "No data provided for update", 400), st)

/-- DELETE /user/{id} (app.py `delete_user`): `DELETE FROM users WHERE
id = ?`; 404 when `rowcount` is 0, else 200. -/
def delete_user (st : Store) (user_id : Nat) : (Body × Nat) × Store :=
  let remaining := st.rows.filter (fun u => u.id != user_id)
  if remaining.length == st.rows.length then
    ((jmsg "User not found", 404), st)
  else
    ((jmsg "User deleted successfully", 200), { st with rows := remaining })

/-- SQLite `LIKE` matching on character lists: `%` matches any run of
characters (equivalently, the rest of the pattern matches some suffix
of the text), `_` matches any single character, and plain characters
compare case-insensitively over ASCII (SQLite's default: only the
26 ASCII letters fold, which is what `Char.toLower` does). -/
def like : List Char → List Char → Bool
  | [], t => t.isEmpty
  | '%' :: ps, t => (List.tails t).any (fun s => like ps s)
  | '_' :: ps, t =>
    (match t with
     | [] => false
     | _ :: ts => like ps ts)
  | c :: ps, t =>
    (match t with
     | [] => false
     | x :: ts => (c.toLower == x.toLower) && like ps ts)

/-- GET /search?name= (app.py `search_users`): missing or empty `name`
gives 400; otherwise rows whose name matches `LIKE '%name%'`, with the
raw query value spliced between the wildcards. -/
def search_users (st : Store) (name : Option String) : Body × Nat :=
  if truthy name then
    let search_pattern := "%" ++ name.getD "" ++ "%"
    let users := st.rows.filter (fun u => like search_pattern.data u.name.data)
    (.arr (users.map rowToDict), 200)
  else
    (jmsg "Please provide a 'name' query parameter to search", 400)

/-- Parsed JSON payload of POST /login. -/
structure LoginBody where
  email : Option String
  password : Option String
deriving Repr

/-- POST /login (app.py `login`): `SELECT id, password FROM users
WHERE email = ?` with `fetchone`, then one `if user and
check_password_hash(...)`; the missing-user case and the
wrong-password case fall into the same `else`. -/
def login (check : String → String → Bool) (st : Store) (data : Option LoginBody) :
    Body × Nat :=
  match data with
  | none => (jmsg "Invalid JSON", 400)
  | some d =>
    if truthy d.email && truthy d.password then
      match st.rows.find? (fun u => u.email == d.email.getD "") with
      | some u =>
        if check u.password (d.password.getD "") then
          (.obj [("status", .s "success"), ("user_id", .n u.id)], 200)
        else
          (.obj [("status", .s "failed"), ("message", .s "Invalid credentials")], 401)
      | none =>
        (.obj [("status", .s "failed"), ("message", .s "Invalid credentials")], 401)
    else
      (jmsg "Missing email or password", 400)

/-- The three sample rows db.py seeds into an empty table, ids 1..3. -/
def seedRows (hash : String → String) : List UserRow :=
  [⟨1, "John Doe", "john@example.com", hash "password123"⟩,
   ⟨2, "Jane Smith", "jane@example.com", hash "secret456"⟩,
   ⟨3, "Bob Johnson", "bob@example.com", hash "qwerty789"⟩]

/-- db.py `init_db_command`.  The database file is modelled as
`Option Store` (`none`: no file).  The function first removes the file
when it exists (`os.path.exists` / `os.remove`), then opens a
connection (creating an empty database when the file is gone), runs
`CREATE TABLE IF NOT EXISTS`, and seeds the three sample users when
`SELECT COUNT(*)` returns 0. -/
def init_db_command (hash : String → String) (fs : Option Store) : Store :=
  let fs1 : Option Store := if fs.isSome then none else fs
  let st : Store :=
    match fs1 with
    | some s => s
    | none => ⟨[], 1⟩
  if st.rows.length == 0 then
    { rows := st.rows ++ seedRows hash, nextId := 4 }
  else
    st

/-- Store invariant maintained by every handler: rows sit in strictly
increasing id order (rowid order) and every id is below the next
AUTOINCREMENT value. -/
def Wf (st : Store) : Prop :=
  st.rows.Pairwise (fun a b => a.id < b.id) ∧ ∀ u ∈ st.rows, u.id < st.nextId

/-- The ids, in order, of the objects of an array body (as serialized
by `rowToDict`). -/
def arrIds : Body → List Nat
  | .obj _ => []
  | .arr os =>
    os.filterMap (fun o =>
      match o.lookup "id" with
      | some (.n i) => some i
      | _ => none)

/-! ### Helper lemmas -/

theorem like_star_of_all (ps : List Char) (h : ∀ s, like ps s = true) (t : List Char) :
    like ('%' :: ps) t = true := by
  simp only [like, List.any_eq_true]
  exact ⟨t, (List.mem_tails _ _).mpr (List.suffix_refl _), h t⟩

theorem like_pct1 (t : List Char) : like ['%'] t = true := by
  simp only [like, List.any_eq_true]
  exact ⟨[], (List.mem_tails _ _).mpr List.nil_suffix, rfl⟩

theorem like_pct3 (t : List Char) : like ['%', '%', '%'] t = true :=
  like_star_of_all _ (fun s => like_star_of_all _ like_pct1 s) t

theorem like_underscore (t : List Char) : like ['%', '_', '%'] t = !t.isEmpty := by
  cases t with
  | nil => rfl
  | cons c ts =>
    simp only [like, List.any_eq_true, List.isEmpty_cons, Bool.not_false]
    refine ⟨c :: ts, (List.mem_tails _ _).mpr (List.suffix_refl _), ?_⟩
    simp [like, like_pct1 ts]

theorem hasKey_arr_map (l : List UserRow) (k : String)
    (h : ∀ u, (rowToDict u).hasKey k = false) :
    Body.hasKey (.arr (l.map rowToDict)) k = false := by
  simp only [Body.hasKey, List.any_eq_false]
  intro o ho
  rw [List.mem_map] at ho
  obtain ⟨u, -, rfl⟩ := ho
  simp [h u]

/-! ### C1 -/

/-- C1: for every store state, every id and every search query, the
serialized body of each read handler (GET /users, GET /user/{id},
GET /search) contains no `password` field and no `password_hash`
field, in any object it carries. -/
theorem reads_never_expose_password (st : Store) (user_id : Nat) (q : Option String) :
    ((get_all_users st).1.hasKey "password" = false
      ∧ (get_all_users st).1.hasKey "password_hash" = false)
    ∧ ((get_user st user_id).1.hasKey "password" = false
      ∧ (get_user st user_id).1.hasKey "password_hash" = false)
    ∧ ((search_users st q).1.hasKey "password" = false
      ∧ (search_users st q).1.hasKey "password_hash" = false) := by
  refine ⟨⟨?_, ?_⟩, ⟨?_, ?_⟩, ⟨?_, ?_⟩⟩
  · exact hasKey_arr_map _ _ (fun u => rfl)
  · exact hasKey_arr_map _ _ (fun u => rfl)
  · unfold get_user
    cases h : st.rows.find? (fun u => u.id == user_id) <;> simp [h] <;> rfl
  · unfold get_user
    cases h : st.rows.find? (fun u => u.id == user_id) <;> simp [h] <;> rfl
  · unfold search_users
    split
    · exact hasKey_arr_map _ _ (fun u => rfl)
    · rfl
  · unfold search_users
    split
    · exact hasKey_arr_map _ _ (fun u => rfl)
    · rfl

/-! ### C2 -/

/-- C2: for non-empty email and password, when the email is absent
from the store or the stored hash does not verify, login returns the
same 401 body in both cases. -/
theorem login_uniform_failure (check : String → String → Bool) (st : Store) (d : LoginBody)
    (he : truthy d.email = true) (hp : truthy d.password = true)
    (hfail : st.rows.find? (fun u => u.email == d.email.getD "") = none
      ∨ ∃ u, st.rows.find? (fun u => u.email == d.email.getD "") = some u
          ∧ check u.password (d.password.getD "") = false) :
    login check st (some d)
      = (.obj [("status", .s "failed"), ("message", .s "Invalid credentials")], 401) := by
  unfold login
  rcases hfail with h | ⟨u, h, hc⟩
  · simp [he, hp, h]
  · simp [he, hp, h, hc]

theorem login_uniform_failure_witness :
    (truthy (some "x@y") = true ∧ truthy (some "pw") = true
      ∧ (Store.mk [] 1).rows.find? (fun u => u.email == (some "x@y").getD "") = none)
    ∧ login (fun _ _ => false) ⟨[], 1⟩ (some ⟨some "x@y", some "pw"⟩)
      = (.obj [("status", .s "failed"), ("message", .s "Invalid credentials")], 401) :=
  ⟨⟨by decide, by decide, rfl⟩,
    login_uniform_failure (fun _ _ => false) ⟨[], 1⟩ ⟨some "x@y", some "pw"⟩
      (by decide) (by decide) (Or.inl rfl)⟩

/-! ### C3 -/

/-- A populated store with four rows, used to exhibit the effect of
re-running the bootstrap. -/
def fourRowStore : Store :=
  ⟨[⟨1, "a", "a@x", "h1"⟩, ⟨2, "b", "b@x", "h2"⟩, ⟨3, "c", "c@x", "h3"⟩, ⟨4, "d", "d@x", "h4"⟩], 5⟩

/-- C3 counterexample: running the bootstrap on a store that already
holds four rows does not leave the row count unchanged — the file is
removed first, so the result has the three seed rows. -/
theorem init_db_second_run_changes_rowcount :
    (init_db_command (fun s => s) (some fourRowStore)).rows.length ≠ fourRowStore.rows.length
    ∧ (init_db_command (fun s => s) (some fourRowStore)).rows.length = 3 := by
  constructor <;> decide

/-- C3 amended: the bootstrap first deletes the database file whenever
it exists, so on every starting state (file absent or any populated
store) it produces exactly the three seeded sample users with next id
4; prior rows are discarded rather than preserved, and re-running it
is idempotent only in the sense that the result is always this same
seeded store. -/
theorem init_db_always_reseeds (hash : String → String) (fs : Option Store) :
    init_db_command hash fs = ⟨seedRows hash, 4⟩ := by
  unfold init_db_command
  cases fs <;> simp [seedRows]

/-! ### C4 -/

/-- A store holding the single user Alice with id 1. -/
def oneRowStore : Store := ⟨[⟨1, "Alice", "alice@x", "h"⟩], 2⟩

/-- C4 counterexample: a PUT on an existing id whose values are
identical to the stored ones does not produce the "no changes" body —
SQLite counts the matched row, so the handler answers
"User updated successfully". -/
theorem update_identical_values_not_no_changes :
    (update_user oneRowStore 1 (some ⟨some "Alice", some "alice@x"⟩)).1
      = (jmsg "User updated successfully", 200)
    ∧ (update_user oneRowStore 1 (some ⟨some "Alice", some "alice@x"⟩)).1
      ≠ (jmsg "User found but no changes made (data was identical)", 200) := by
  constructor <;> decide

/-- C4 amended: an UPDATE's rowcount counts the rows matched by the
WHERE clause, so it is zero exactly when no row has the requested id;
in that case the handler's re-query finds nothing and it returns 404
with the store unchanged.  The "no changes" branch is unreachable
(an identical-value PUT on an existing id matches one row and returns
"User updated successfully", as the counterexample shows). -/
theorem update_zero_affected_is_not_found (st : Store) (uid : Nat) (d : UpdateBody)
    (hv : (truthy d.name || truthy d.email) = true)
    (h0 : st.rows.countP (fun u => u.id == uid) = 0) :
    update_user st uid (some d) = ((jmsg "User not found", 404), st) := by
  have hall : ∀ u ∈ st.rows, ¬((u.id == uid) = true) := List.countP_eq_zero.mp h0
  have hany : st.rows.any (fun u => u.id == uid) = false := by
    simp only [List.any_eq_false]
    exact hall
  have hmap : st.rows.map (fun u => if u.id == uid then applyUpdate d u else u) = st.rows := by
    have hcong : ∀ u ∈ st.rows, (if u.id == uid then applyUpdate d u else u) = u := by
      intro u hu
      rw [if_neg (hall u hu)]
    rw [List.map_congr_left hcong]
    exact List.map_id _
  have hfind : st.rows.find? (fun u => u.id == uid) = none :=
    List.find?_eq_none.mpr hall
  show (if truthy d.name || truthy d.email then _ else _) = _
  rw [if_pos hv, if_neg (by simp [hany] : ¬((st.rows.any (fun u => u.id == uid) && truthy d.email
      && st.rows.any (fun v => v.id != uid && v.email == d.email.getD "")) = true))]
  simp only [h0, hmap, hfind]
  rfl

theorem update_zero_affected_witness :
    ((truthy (some "X") || truthy (none : Option String)) = true
      ∧ (Store.mk [] 1).rows.countP (fun u => u.id == 1) = 0)
    ∧ update_user ⟨[], 1⟩ 1 (some ⟨some "X", none⟩) = ((jmsg "User not found", 404), ⟨[], 1⟩) :=
  ⟨⟨by decide, by decide⟩,
    update_zero_affected_is_not_found ⟨[], 1⟩ 1 ⟨some "X", none⟩ (by decide) (by decide)⟩

/-! ### C5 -/

/-- C5: creating a user with an email already present in the store
answers 409 with the duplicate-email message and returns the store
exactly as it was, so every pre-existing record is untouched. -/
theorem create_duplicate_email_conflict (hash : String → String) (st : Store) (d : CreateBody)
    (hn : truthy d.name = true) (he : truthy d.email = true) (hp : truthy d.password = true)
    (hdup : st.rows.any (fun u => u.email == d.email.getD "") = true) :
    create_user hash st (some d) = ((jmsg "User with this email already exists", 409), st) := by
  unfold create_user
  simp [hn, he, hp, hdup]

theorem create_duplicate_email_conflict_witness :
    (truthy (some "B") = true ∧ truthy (some "a@x") = true ∧ truthy (some "pw") = true
      ∧ (Store.mk [⟨1, "A", "a@x", "h"⟩] 2).rows.any
          (fun u => u.email == (some "a@x").getD "") = true)
    ∧ create_user (fun s => s) ⟨[⟨1, "A", "a@x", "h"⟩], 2⟩ (some ⟨some "B", some "a@x", some "pw"⟩)
      = ((jmsg "User with this email already exists", 409), ⟨[⟨1, "A", "a@x", "h"⟩], 2⟩) :=
  ⟨⟨by decide, by decide, by decide, by decide⟩,
    create_duplicate_email_conflict (fun s => s) ⟨[⟨1, "A", "a@x", "h"⟩], 2⟩
      ⟨some "B", some "a@x", some "pw"⟩ (by decide) (by decide) (by decide) (by decide)⟩

/-! ### C6 -/

/-- C6: with non-empty name, email and password and a fresh email,
create answers 201 carrying `user_id = nextId`, and get_by_id on that
id returns exactly the submitted name and email with no password or
password_hash field. -/
theorem create_then_get_roundtrip (hash : String → String) (st : Store)
    (n e p : String) (hn : n ≠ "") (he : e ≠ "") (hp : p ≠ "")
    (hfresh : st.rows.any (fun u => u.email == e) = false)
    (hwf : ∀ u ∈ st.rows, u.id < st.nextId) :
    (create_user hash st (some ⟨some n, some e, some p⟩)).1
      = (.obj [("message", .s "User created successfully!"), ("user_id", .n st.nextId)], 201)
    ∧ get_user (create_user hash st (some ⟨some n, some e, some p⟩)).2 st.nextId
      = (.obj [("id", .n st.nextId), ("name", .s n), ("email", .s e)], 200)
    ∧ (get_user (create_user hash st (some ⟨some n, some e, some p⟩)).2 st.nextId).1.hasKey
        "password_hash" = false
    ∧ (get_user (create_user hash st (some ⟨some n, some e, some p⟩)).2 st.nextId).1.hasKey
        "password" = false := by
  have htn : truthy (some n) = true := by simp [truthy, hn]
  have hte : truthy (some e) = true := by simp [truthy, he]
  have htp : truthy (some p) = true := by simp [truthy, hp]
  have hstep : create_user hash st (some ⟨some n, some e, some p⟩)
      = ((.obj [("message", .s "User created successfully!"), ("user_id", .n st.nextId)], 201),
         ⟨st.rows ++ [⟨st.nextId, n, e, hash p⟩], st.nextId + 1⟩) := by
    unfold create_user
    simp [htn, hte, htp, hfresh]
  have hfind : (st.rows ++ ([⟨st.nextId, n, e, hash p⟩] : List UserRow)).find?
        (fun u => u.id == st.nextId)
      = some (⟨st.nextId, n, e, hash p⟩ : UserRow) := by
    rw [List.find?_append]
    have h1 : st.rows.find? (fun u => u.id == st.nextId) = none :=
      List.find?_eq_none.mpr (fun u hu => by simp [Nat.ne_of_lt (hwf u hu)])
    rw [h1]
    simp
  refine ⟨?_, ?_, ?_, ?_⟩
  · rw [hstep]
  · rw [hstep]
    simp only [get_user, hfind]
    rfl
  · rw [hstep]
    simp only [get_user, hfind]
    rfl
  · rw [hstep]
    simp only [get_user, hfind]
    rfl

theorem create_then_get_roundtrip_witness :
    (("N" : String) ≠ "" ∧ ("e@x" : String) ≠ "" ∧ ("p" : String) ≠ ""
      ∧ (Store.mk [] 1).rows.any (fun u => u.email == "e@x") = false)
    ∧ (create_user (fun s => s) ⟨[], 1⟩ (some ⟨some "N", some "e@x", some "p"⟩)).1
      = (.obj [("message", .s "User created successfully!"), ("user_id", .n 1)], 201)
    ∧ get_user (create_user (fun s => s) ⟨[], 1⟩ (some ⟨some "N", some "e@x", some "p"⟩)).2 1
      = (.obj [("id", .n 1), ("name", .s "N"), ("email", .s "e@x")], 200) := by
  have h := create_then_get_roundtrip (fun s => s) ⟨[], 1⟩ "N" "e@x" "p"
    (by decide) (by decide) (by decide) (by decide) (by intro u hu; cases hu)
  exact ⟨⟨by decide, by decide, by decide, by decide⟩, h.1, h.2.1⟩

/-! ### C7 -/

theorem arrIds_arr_map (l : List UserRow) :
    arrIds (.arr (l.map rowToDict)) = l.map (fun u => u.id) := by
  induction l with
  | nil => rfl
  | cons u us ih =>
    show u.id :: arrIds (.arr (us.map rowToDict)) = u.id :: us.map (fun v => v.id)
    rw [ih]

/-- C7: on every well-formed store, GET /users answers 200 with the
array of `{id, name, email}` dicts of all rows, its ids in strictly
ascending order, and the empty store yields the empty array with
status 200 rather than an error. -/
theorem list_all_ordered (st : Store) (h : Wf st) :
    get_all_users st = (.arr (st.rows.map rowToDict), 200)
    ∧ (arrIds (get_all_users st).1).Pairwise (fun a b => a < b)
    ∧ (st.rows = [] → get_all_users st = (.arr [], 200)) := by
  refine ⟨rfl, ?_, ?_⟩
  · show (arrIds (.arr (st.rows.map rowToDict))).Pairwise (fun a b => a < b)
    rw [arrIds_arr_map]
    exact List.pairwise_map.mpr h.1
  · intro he
    unfold get_all_users
    rw [he]
    rfl

theorem list_all_ordered_witness :
    Wf ⟨[⟨1, "A", "a@x", "h1"⟩, ⟨3, "B", "b@x", "h2"⟩], 4⟩
    ∧ get_all_users ⟨[⟨1, "A", "a@x", "h1"⟩, ⟨3, "B", "b@x", "h2"⟩], 4⟩
      = (.arr [[("id", .n 1), ("name", .s "A"), ("email", .s "a@x")],
               [("id", .n 3), ("name", .s "B"), ("email", .s "b@x")]], 200)
    ∧ (arrIds (get_all_users ⟨[⟨1, "A", "a@x", "h1"⟩, ⟨3, "B", "b@x", "h2"⟩], 4⟩).1).Pairwise
        (fun a b => a < b) := by
  have hwf : Wf ⟨[⟨1, "A", "a@x", "h1"⟩, ⟨3, "B", "b@x", "h2"⟩], 4⟩ := by
    constructor
    · simp [List.pairwise_cons]
    · intro u hu
      simp only [List.mem_cons, List.mem_singleton] at hu
      rcases hu with rfl | rfl | h
      · decide
      · decide
      · cases h
  have h := list_all_ordered ⟨[⟨1, "A", "a@x", "h1"⟩, ⟨3, "B", "b@x", "h2"⟩], 4⟩ hwf
  exact ⟨hwf, h.1, h.2.1⟩

/-! ### C8 -/

/-- C8: on the freshly seeded store (John Doe id 1, Jane Smith id 2,
Bob Johnson id 3, any password hashes), searching for "oh" returns
exactly John Doe and Bob Johnson, in ascending id order, with 200. -/
theorem search_oh_on_seeded (hash : String → String) :
    search_users ⟨seedRows hash, 4⟩ (some "oh")
      = (.arr [[("id", .n 1), ("name", .s "John Doe"), ("email", .s "john@example.com")],
               [("id", .n 3), ("name", .s "Bob Johnson"), ("email", .s "bob@example.com")]],
         200) := rfl

/-! ### C9 -/

/-- C9: the raw query value is spliced between the LIKE wildcards, so
LIKE metacharacters act as wildcards rather than literals: on any
non-empty store, searching for "%" returns every user (even those
whose names contain no percent sign), and searching for "_" returns
exactly the users with a non-empty name (even those whose names
contain no underscore). -/
theorem search_metacharacters_act_as_wildcards (st : Store) (_h : st.rows ≠ []) :
    search_users st (some "%") = (.arr (st.rows.map rowToDict), 200)
    ∧ search_users st (some "_")
      = (.arr ((st.rows.filter (fun u => !u.name.data.isEmpty)).map rowToDict), 200) := by
  constructor
  · have step : search_users st (some "%")
        = (.arr ((st.rows.filter (fun u => like ['%', '%', '%'] u.name.data)).map rowToDict),
           200) := rfl
    rw [step, List.filter_eq_self.mpr (fun u _ => like_pct3 u.name.data)]
  · have step : search_users st (some "_")
        = (.arr ((st.rows.filter (fun u => like ['%', '_', '%'] u.name.data)).map rowToDict),
           200) := rfl
    rw [step]
    have : st.rows.filter (fun u => like ['%', '_', '%'] u.name.data)
        = st.rows.filter (fun u => !u.name.data.isEmpty) := by
      apply List.filter_congr
      intro u _
      exact like_underscore u.name.data
    rw [this]

theorem search_metacharacters_witness :
    ((Store.mk [⟨1, "abc", "a@x", "h"⟩] 2).rows ≠ [])
    ∧ search_users ⟨[⟨1, "abc", "a@x", "h"⟩], 2⟩ (some "%")
      = (.arr [[("id", .n 1), ("name", .s "abc"), ("email", .s "a@x")]], 200)
    ∧ search_users ⟨[⟨1, "abc", "a@x", "h"⟩], 2⟩ (some "_")
      = (.arr [[("id", .n 1), ("name", .s "abc"), ("email", .s "a@x")]], 200) := by
  have h := search_metacharacters_act_as_wildcards ⟨[⟨1, "abc", "a@x", "h"⟩], 2⟩ (by decide)
  exact ⟨by decide, h.1, h.2⟩

/-! ### C10 -/

/-- C10: PUT treats empty-string fields like absent ones: with an
existing id, a body of empty name and non-empty fresh email updates
the email only, leaving every row's name unchanged, and a body whose
name and email are both empty strings is rejected with 400 and leaves
the store untouched. -/
theorem update_empty_fields_treated_as_absent (st : Store) (uid : Nat) (e : String)
    (he : e ≠ "")
    (hex : st.rows.countP (fun u => u.id == uid) ≠ 0)
    (hnc : st.rows.any (fun v => v.id != uid && v.email == e) = false) :
    update_user st uid (some ⟨some "", some e⟩)
      = ((jmsg "User updated successfully", 200),
         { st with rows :=
             st.rows.map (fun u => if u.id == uid then { u with email := e } else u) })
    ∧ ((update_user st uid (some ⟨some "", some e⟩)).2.rows.map (fun u => u.name))
      = st.rows.map (fun u => u.name)
    ∧ update_user st uid (some ⟨some "", some ""⟩)
      = ((jmsg "No data provided for update", 400), st) := by
  have hte : truthy (some e) = true := by simp [truthy, he]
  have happly : (fun u => if u.id == uid then applyUpdate ⟨some "", some e⟩ u else u)
      = (fun u => if u.id == uid then ({ u with email := e } : UserRow) else u) := by
    funext u
    simp [applyUpdate, truthy, he]
  have hmain : update_user st uid (some ⟨some "", some e⟩)
      = ((jmsg "User updated successfully", 200),
         { st with rows :=
             st.rows.map (fun u => if u.id == uid then { u with email := e } else u) }) := by
    show (if truthy (some "") || truthy (some e) then _ else _) = _
    rw [if_pos (by simp [hte]), if_neg (by simp [hnc] :
      ¬((st.rows.any (fun u => u.id == uid) && truthy (some e)
        && st.rows.any (fun v => v.id != uid && v.email == (some e).getD "")) = true))]
    simp only [happly]
    rw [if_neg (by simp [hex] : ¬((st.rows.countP (fun u => u.id == uid) == 0) = true))]
  refine ⟨hmain, ?_, ?_⟩
  · rw [hmain]
    show (st.rows.map (fun u => if u.id == uid then ({ u with email := e } : UserRow) else u)).map
        (fun u => u.name) = st.rows.map (fun u => u.name)
    rw [List.map_map]
    apply List.map_congr_left
    intro u _
    show (if u.id == uid then ({ u with email := e } : UserRow) else u).name = u.name
    by_cases hc : (u.id == uid) = true
    · rw [if_pos hc]
    · rw [if_neg hc]
  · rfl

theorem update_empty_fields_witness :
    (("b@x" : String) ≠ ""
      ∧ (Store.mk [⟨1, "A", "a@x", "h"⟩] 2).rows.countP (fun u => u.id == 1) ≠ 0
      ∧ (Store.mk [⟨1, "A", "a@x", "h"⟩] 2).rows.any
          (fun v => v.id != 1 && v.email == "b@x") = false)
    ∧ update_user ⟨[⟨1, "A", "a@x", "h"⟩], 2⟩ 1 (some ⟨some "", some "b@x"⟩)
      = ((jmsg "User updated successfully", 200), ⟨[⟨1, "A", "b@x", "h"⟩], 2⟩)
    ∧ update_user ⟨[⟨1, "A", "a@x", "h"⟩], 2⟩ 1 (some ⟨some "", some ""⟩)
      = ((jmsg "No data provided for update", 400), ⟨[⟨1, "A", "a@x", "h"⟩], 2⟩) := by
  have h := update_empty_fields_treated_as_absent ⟨[⟨1, "A", "a@x", "h"⟩], 2⟩ 1 "b@x"
    (by decide) (by decide) (by decide)
  exact ⟨⟨by decide, by decide, by decide⟩, by rw [h.1]; rfl, h.2.2⟩


/-! ### Reachability: every store the handlers can produce is well-formed -/

/-- Ids are untouched by the partial update. -/
theorem applyUpdate_id (d : UpdateBody) (u : UserRow) : (applyUpdate d u).id = u.id := rfl

theorem Wf_seed (hash : String → String) : Wf ⟨seedRows hash, 4⟩ := by
  constructor
  · simp [seedRows, List.pairwise_cons]
  · intro u hu
    simp only [seedRows, List.mem_cons, List.mem_singleton] at hu
    rcases hu with rfl | rfl | rfl | h
    · exact (by decide : (1 : Nat) < 4)
    · exact (by decide : (2 : Nat) < 4)
    · exact (by decide : (3 : Nat) < 4)
    · cases h

theorem Wf_init (hash : String → String) (fs : Option Store) : Wf (init_db_command hash fs) := by
  have hseed : init_db_command hash fs = ⟨seedRows hash, 4⟩ := by
    unfold init_db_command
    cases fs <;> simp [seedRows]
  rw [hseed]
  exact Wf_seed hash

/-- Any row transformation that keeps ids fixed preserves the store
invariant. -/
theorem Wf_map_id_preserving (st : Store) (f : UserRow → UserRow)
    (hid : ∀ u, (f u).id = u.id) (h : Wf st) : Wf { st with rows := st.rows.map f } := by
  constructor
  · rw [List.pairwise_map]
    exact h.1.imp (fun hab => by rw [hid, hid]; exact hab)
  · intro u hu
    rw [List.mem_map] at hu
    obtain ⟨v, hv, rfl⟩ := hu
    rw [hid]
    exact h.2 v hv

theorem Wf_create (hash : String → String) (st : Store) (data : Option CreateBody)
    (h : Wf st) : Wf (create_user hash st data).2 := by
  unfold create_user
  cases data with
  | none => exact h
  | some d =>
    by_cases hv : (truthy d.name && truthy d.email && truthy d.password) = true
    · by_cases hdup : (st.rows.any (fun u => u.email == d.email.getD "")) = true
      · simp only [hv, hdup, if_true]
        exact h
      · simp only [hv, if_true, hdup, if_false, Bool.false_eq_true]
        constructor
        · rw [List.pairwise_append]
          refine ⟨h.1, List.pairwise_singleton _ _, ?_⟩
          intro u hu v hv2
          rw [List.mem_singleton] at hv2
          subst hv2
          exact h.2 u hu
        · intro u hu
          rw [List.mem_append, List.mem_singleton] at hu
          rcases hu with hu | rfl
          · exact Nat.lt_succ_of_lt (h.2 u hu)
          · exact Nat.lt_succ_self _
    · rw [Bool.not_eq_true] at hv
      simp only [hv, Bool.false_eq_true, if_false]
      exact h

theorem Wf_update (st : Store) (uid : Nat) (data : Option UpdateBody)
    (h : Wf st) : Wf (update_user st uid data).2 := by
  unfold update_user
  cases data with
  | none => exact h
  | some d =>
    have hst2 : Wf { st with rows := st.rows.map (fun u => if u.id == uid then applyUpdate d u else u) } :=
      Wf_map_id_preserving st _
        (fun u => by
          by_cases hc : (u.id == uid) = true
          · rw [if_pos hc, applyUpdate_id]
          · rw [if_neg hc])
        h
    by_cases hb : (truthy d.name || truthy d.email) = true
    · by_cases hconf : (st.rows.any (fun u => u.id == uid) && truthy d.email
          && st.rows.any (fun v => v.id != uid && v.email == d.email.getD "")) = true
      · simp only [hb, if_true, hconf]
        exact h
      · rw [Bool.not_eq_true] at hconf
        simp only [hb, if_true, hconf, Bool.false_eq_true, if_false]
        by_cases hz : (st.rows.countP (fun u => u.id == uid) == 0) = true
        · simp only [hz, if_true]
          cases (st.rows.map (fun u => if u.id == uid then applyUpdate d u else u)).find?
              (fun u => u.id == uid) with
          | none => exact hst2
          | some u => exact hst2
        · rw [Bool.not_eq_true] at hz
          simp only [hz, Bool.false_eq_true, if_false]
          exact hst2
    · rw [Bool.not_eq_true] at hb
      simp only [hb, Bool.false_eq_true, if_false]
      exact h

theorem Wf_delete (st : Store) (uid : Nat) (h : Wf st) : Wf (delete_user st uid).2 := by
  unfold delete_user
  by_cases hl : ((st.rows.filter (fun u => u.id != uid)).length == st.rows.length) = true
  · simp only [hl, if_true]
    exact h
  · rw [Bool.not_eq_true] at hl
    simp only [hl, Bool.false_eq_true, if_false]
    constructor
    · exact h.1.sublist (List.filter_sublist _)
    · intro u hu
      exact h.2 u (List.mem_of_mem_filter hu)

/-- The store states the application can actually be in: a bootstrapped
database followed by any sequence of handler calls. -/
inductive Reachable : Store → Prop where
  | boot (hash : String → String) (fs : Option Store) : Reachable (init_db_command hash fs)
  | created (hash : String → String) (st : Store) (data : Option CreateBody) :
      Reachable st → Reachable (create_user hash st data).2
  | updated (st : Store) (uid : Nat) (data : Option UpdateBody) :
      Reachable st → Reachable (update_user st uid data).2
  | deleted (st : Store) (uid : Nat) :
      Reachable st → Reachable (delete_user st uid).2

/-- Every reachable store satisfies the well-formedness invariant, so
hypotheses of the form `Wf st` cover all states the handlers see. -/
theorem reachable_wf (st : Store) (h : Reachable st) : Wf st := by
  induction h with
  | boot hash fs => exact Wf_init hash fs
  | created hash st data _ ih => exact Wf_create hash st data ih
  | updated st uid data _ ih => exact Wf_update st uid data ih
  | deleted st uid _ ih => exact Wf_delete st uid ih
